import Mathlib

/-!
Verification of the EdgeX netdata collector module
(collectors/python.d.plugin/edgex/edgex.chart.py).

The module periodically fetches metrics from several EdgeX services and
merges the per-source results into one snapshot.  We embed the per-source
routines, the exception-suppressing wrapper `get_survive_any`, and the
merge loop of `Service._get_data` as pure Lean functions.

Modelling conventions:
* Python dictionaries are ordered association lists with unique keys;
  assignment `d[k] = v` overwrites the first binding of `k` in place or
  appends a fresh binding at the end, exactly as `dictSet` below.
* A raised exception is `Except.error ()`; `get_survive_any` catches it
  and enqueues one empty dictionary, as the decorator in the source does.
* The response body returned by `self._get_raw_data` is `none` on a fetch
  failure and otherwise a body value: either plain text (`RawBody.text`)
  or a body that is valid JSON (`RawBody.json`).  The Python builtins
  `int` and `json.loads` (standard library, outside this repository) are
  modelled by `pyInt` and `pyLoads`.
* Each routine returns the list of values it passes to `queue.put`, so
  that the enqueue count is part of the model.
-/

namespace Edgex

/-- Decoded JSON values, the possible results of `json.loads`. -/
inductive Json where
  | null
  | bool (b : Bool)
  | num (n : Int)
  | str (s : String)
  | arr (elems : List Json)
  | obj (fields : List (String × Json))

/-- A Python dictionary with string keys, as an ordered association list. -/
abbrev Frag := List (String × Json)

/-- Python dictionary read `d[k]`, as an `Option`. -/
def dictLookup : Frag → String → Option Json
  | [], _ => none
  | (a, v) :: tl, k => if a = k then some v else dictLookup tl k

/-- Python dictionary assignment `d[k] = v`: overwrite the binding of `k`
in place, or append a new binding at the end. -/
def dictSet : Frag → String → Json → Frag
  | [], k, v => [(k, v)]
  | (a, b) :: tl, k, v => if a = k then (k, v) :: tl else (a, b) :: dictSet tl k v

/-- The keys of a dictionary, in insertion order. -/
def dictKeys (d : Frag) : List String := d.map Prod.fst

/-- Python `d.update(e)`: assign every binding of `e` into `d`, in order. -/
def dictUpdate (d e : Frag) : Frag := e.foldl (fun acc p => dictSet acc p.1 p.2) d

/-- Python substring test `needle in hay`. -/
def pyIn (needle hay : String) : Bool := decide (needle.data <:+: hay.data)

/-- Surrounding-whitespace strip, as performed by Python `int`. -/
def trimChars (l : List Char) : List Char :=
  ((l.dropWhile Char.isWhitespace).reverse.dropWhile Char.isWhitespace).reverse

/-- Decimal digit run accumulator; `none` on a non-digit character. -/
def parseDigits : List Char → Nat → Option Nat
  | [], acc => some acc
  | c :: tl, acc => if c.isDigit then parseDigits tl (acc * 10 + (c.toNat - 48)) else none

/-- Python `int(s)`: strip surrounding whitespace, then an optional sign
followed by a non-empty run of decimal digits; `none` on anything else
(exotic accepted forms such as underscore separators are not modelled). -/
def pyIntChars (l : List Char) : Option Int :=
  match trimChars l with
  | [] => none
  | '-' :: tl => if tl.isEmpty then none else (parseDigits tl 0).map (fun n => -(n : Int))
  | '+' :: tl => if tl.isEmpty then none else (parseDigits tl 0).map (fun n => (n : Int))
  | l2 => (parseDigits l2 0).map (fun n => (n : Int))

/-- Python `int(s)` on text, raising on a malformed integer. -/
def pyIntText (s : String) : Except Unit Int :=
  match pyIntChars s.data with
  | some n => .ok n
  | none => .error ()

/-- A non-`None` HTTP response body.  `text s` is plain text (the count
endpoints); `json j` is a body that is valid JSON and decodes to `j`. -/
inductive RawBody where
  | text (s : String)
  | json (j : Json)

/-- The result of `self._get_raw_data(url)`: `none` models a fetch failure. -/
abbrev Raw := Option RawBody

/-- Python truthiness test `not raw` on a fetch result: `None` and an
empty body are falsy. -/
def rawFalsy : Raw → Bool
  | none => true
  | some (.text s) => s.data.isEmpty
  | some (.json _) => false

/-- Python `int(raw)` applied to a response body. -/
def pyInt : Raw → Except Unit Int
  | none => .error ()
  | some (.text s) => pyIntText s
  | some (.json (.num n)) => .ok n
  | some (.json _) => .error ()

/-- Python `json.loads(raw)`.  A `json` body decodes to its value; plain
integer text is valid JSON and decodes to a number; other plain text is
not valid JSON in this model and raises. -/
def pyLoads : Raw → Except Unit Json
  | none => .error ()
  | some (.json j) => .ok j
  | some (.text s) =>
    match pyIntChars s.data with
    | some n => .ok (.num n)
    | none => .error ()

/-- Python subscript `parsed[k]`: succeeds exactly on a JSON object that
has the key; raises a KeyError or TypeError otherwise. -/
def jsonGet (j : Json) (k : String) : Except Unit Json :=
  match j with
  | .obj fields =>
    match dictLookup fields k with
    | some v => .ok v
    | none => .error ()
  | _ => .error ()

/-- Python `len(parsed)`: length of a JSON array, number of keys of a
JSON object, character count of a JSON string; raises otherwise. -/
def pyLen : Json → Except Unit Int
  | .arr l => .ok (l.length : Int)
  | .obj fields => .ok (fields.length : Int)
  | .str s => .ok (s.length : Int)
  | _ => .error ()

/-- The per-job configuration consumed by `Service.__init__`: protocol,
host, the four service ports, and the three enable flags. -/
structure Config where
  protocol : String
  host : String
  port_logging : String
  port_data : String
  port_metadata : String
  port_command : String
  events_per_second : Bool
  number_of_devices : Bool
  metrics : Bool

/-- The default configuration values of `Service.__init__`. -/
def defaultConfig : Config :=
  ⟨"http", "localhost", "48061", "48080", "48081", "48082", true, true, true⟩

/-- `self.url`. -/
def baseUrl (c : Config) : String := c.protocol ++ "://" ++ c.host

/-- `self.url_core_data` from `init_urls`. -/
def url_core_data (c : Config) : String :=
  baseUrl c ++ ":" ++ c.port_data ++ "/api/v1/"

/-- `self.url_core_metadata` from `init_urls`. -/
def url_core_metadata (c : Config) : String :=
  baseUrl c ++ ":" ++ c.port_metadata ++ "/api/v1/"

/-- `self.url_core_command` from `init_urls`. -/
def url_core_command (c : Config) : String :=
  baseUrl c ++ ":" ++ c.port_command ++ "/api/v1/"

/-- `self.url_support_logging` from `init_urls`. -/
def url_support_logging (c : Config) : String :=
  baseUrl c ++ ":" ++ c.port_logging ++ "/api/v1/"

/-- Body of `Service._get_core_throughput_readings` before the wrapper:
`raw` is the response for `url + 'reading/count'`; the result collects
the arguments of `queue.put`. -/
def get_core_throughput_readings (c : Config) (url : String) (raw : Raw) :
    Except Unit (List Frag) :=
  if rawFalsy raw then .ok [[]]
  else do
    let n ← pyInt raw
    let data := dictSet [] "readings" (.num n)
    let data := if pyIn "event" url then dictSet data "events" (.num n) else data
    .ok [data]

/-- Body of `Service._get_core_throughput_events` before the wrapper:
`raw` is the response for `url + 'event/count'`. -/
def get_core_throughput_events (c : Config) (url : String) (raw : Raw) :
    Except Unit (List Frag) :=
  if rawFalsy raw then .ok [[]]
  else do
    let n ← pyInt raw
    .ok [dictSet [] "events" (.num n)]

/-- Body of `Service._get_device_info` before the wrapper: `raw` is the
response for `url + 'device'`. -/
def get_device_info (c : Config) (url : String) (raw : Raw) :
    Except Unit (List Frag) :=
  if rawFalsy raw then .ok [[]]
  else do
    let parsed ← pyLoads raw
    let n ← pyLen parsed
    .ok [dictSet [] "registered_devices" (.num n)]

/-- The compound subscript `parsed["Memory"][k]` of `_get_metrics_data`. -/
def memField (parsed : Json) (k : String) : Except Unit Json := do
  let m ← jsonGet parsed "Memory"
  jsonGet m k

/-- Body of `Service._get_metrics_data` before the wrapper: `raw` is the
response for `url + 'metrics'`; the service attribution follows the
if/elif chain of port-in-url substring tests of the source. -/
def get_metrics_data (c : Config) (url : String) (raw : Raw) :
    Except Unit (List Frag) :=
  if rawFalsy raw then .ok [[]]
  else do
    let parsed ← pyLoads raw
    let data : Frag := []
    if pyIn c.port_data url then do
      let data := dictSet data "core_data_alloc" (← memField parsed "Alloc")
      let data := dictSet data "core_data_malloc" (← memField parsed "Mallocs")
      let data := dictSet data "core_data_frees" (← memField parsed "Frees")
      let data := dictSet data "core_data_live_objects" (← memField parsed "LiveObjects")
      .ok [data]
    else if pyIn c.port_metadata url then do
      let data := dictSet data "core_metadata_alloc" (← memField parsed "Alloc")
      let data := dictSet data "core_metadata_malloc" (← memField parsed "Mallocs")
      let data := dictSet data "core_metadata_frees" (← memField parsed "Frees")
      let data := dictSet data "core_metadata_live_objects" (← memField parsed "LiveObjects")
      .ok [data]
    else if pyIn c.port_command url then do
      let data := dictSet data "core_command_alloc" (← memField parsed "Alloc")
      let data := dictSet data "core_command_malloc" (← memField parsed "Mallocs")
      let data := dictSet data "core_command_frees" (← memField parsed "Frees")
      .ok [data]
    else if pyIn c.port_logging url then do
      let data := dictSet data "support_logging_alloc" (← memField parsed "Alloc")
      let data := dictSet data "support_logging_malloc" (← memField parsed "Mallocs")
      let data := dictSet data "support_logging_frees" (← memField parsed "Frees")
      let data := dictSet data "support_logging_live_objects" (← memField parsed "LiveObjects")
      .ok [data]
    else .ok [data]

/-- The `get_survive_any` decorator: run the wrapped routine; on any
exception, log it and enqueue one empty dictionary. -/
def get_survive_any (r : Except Unit (List Frag)) : List Frag :=
  match r with
  | .ok puts => puts
  | .error _ => [[]]

/-- Which per-source routine a `METHODS` entry dispatches to. -/
inductive SourceKind where
  | core_throughput_events
  | core_throughput_readings
  | device_info
  | metrics_data
deriving DecidableEq

/-- Dispatch on the `get_data` field of a `METHODS` entry. -/
def runSource (c : Config) (k : SourceKind) (url : String) (raw : Raw) :
    Except Unit (List Frag) :=
  match k with
  | .core_throughput_events => get_core_throughput_events c url raw
  | .core_throughput_readings => get_core_throughput_readings c url raw
  | .device_info => get_device_info c url raw
  | .metrics_data => get_metrics_data c url raw

/-- The values a source routine passes to `queue.put`, with the
`get_survive_any` wrapper applied. -/
def sourcePuts (c : Config) (k : SourceKind) (url : String) (raw : Raw) : List Frag :=
  get_survive_any (runSource c k url raw)

/-- The single fragment a source contributes to the queue. -/
def sourceFrag (c : Config) (k : SourceKind) (url : String) (raw : Raw) : Frag :=
  (sourcePuts c k url raw).headD []

/-- `self.methods` from `init_methods`: routine, url, and run flag of the
seven configured sources, in source order. -/
def methods (c : Config) : List (SourceKind × String × Bool) :=
  [ (.core_throughput_events, url_core_data c, c.events_per_second),
    (.core_throughput_readings, url_core_data c, c.events_per_second),
    (.device_info, url_core_metadata c, c.number_of_devices),
    (.metrics_data, url_core_metadata c, c.metrics),
    (.metrics_data, url_core_data c, c.metrics),
    (.metrics_data, url_core_command c, c.metrics),
    (.metrics_data, url_support_logging c, c.metrics) ]

/-- The merge loop of `Service._get_data`: one `result.update(queue.get())`
per launched thread, starting from an empty dictionary. -/
def mergeFrags (frags : List Frag) : Frag := frags.foldl dictUpdate []

/-- The final `return result or None` of `Service._get_data`: an empty
dictionary is falsy. -/
def resultOrNone (result : Frag) : Option Frag :=
  if result.isEmpty then none else some result

/-- The fragments of one cycle: the launch loop of `Service._get_data`
skips methods whose run flag is unset, and each launched thread puts one
fragment; `raws` gives the fetch result of each enabled source, in launch
order. -/
def cycleFrags (c : Config) (raws : List Raw) : List Frag :=
  (((methods c).filter (fun m => m.2.2)).zip raws).map
    (fun p => sourceFrag c p.1.1 p.1.2.1 p.2)

/-- `Service._get_data` as a function of the fetch results of the enabled
sources, taken here in launch order (the queue order is a permutation of
it; the claims proved below do not depend on the order). -/
def get_data (c : Config) (raws : List Raw) : Option Frag :=
  resultOrNone (mergeFrags (cycleFrags c raws))

/-- The complete key set a source writes on a fully successful parse, read
off the assignments of its routine. -/
def fullFields (c : Config) (k : SourceKind) (url : String) : List String :=
  match k with
  | .core_throughput_events => ["events"]
  | .core_throughput_readings =>
    if pyIn "event" url then ["readings", "events"] else ["readings"]
  | .device_info => ["registered_devices"]
  | .metrics_data =>
    if pyIn c.port_data url then
      ["core_data_alloc", "core_data_malloc", "core_data_frees", "core_data_live_objects"]
    else if pyIn c.port_metadata url then
      ["core_metadata_alloc", "core_metadata_malloc", "core_metadata_frees",
        "core_metadata_live_objects"]
    else if pyIn c.port_command url then
      ["core_command_alloc", "core_command_malloc", "core_command_frees"]
    else if pyIn c.port_logging url then
      ["support_logging_alloc", "support_logging_malloc", "support_logging_frees",
        "support_logging_live_objects"]
    else []

/-- A configuration whose host name contains the substring `event`. -/
def eventConfig : Config :=
  ⟨"http", "eventhost", "48061", "48080", "48081", "48082", true, true, true⟩

/-- The runtime-metrics payload of the specification example, as a fetch
result: a JSON object with nested Memory fields. -/
def memJson (a m f l : Int) : Raw :=
  some (.json (.obj [("Memory", .obj
    [("Alloc", .num a), ("Mallocs", .num m), ("Frees", .num f), ("LiveObjects", .num l)])]))

/-- The fragment contributed by the i-th configured source (in the order
of `self.methods`) for a given fetch result. -/
def fragAt (c : Config) (i : Fin 7) (r : Raw) : Frag :=
  let m := (methods c).get ⟨i.val, i.isLt⟩
  sourceFrag c m.1 m.2.1 r

section Lemmas

@[simp] theorem ok_bind {α β : Type} (a : α) (f : α → Except Unit β) :
    (Except.ok a : Except Unit α) >>= f = f a := rfl

@[simp] theorem error_bind {α β : Type} (f : α → Except Unit β) :
    (Except.error () : Except Unit α) >>= f = Except.error () := rfl

theorem dictLookup_dictSet_self (d : Frag) (k : String) (v : Json) :
    dictLookup (dictSet d k v) k = some v := by
  induction d with
  | nil => simp [dictSet, dictLookup]
  | cons p tl ih =>
    obtain ⟨a, b⟩ := p
    by_cases h : a = k
    · subst h; simp [dictSet, dictLookup]
    · simp [dictSet, dictLookup, h, ih]

theorem dictLookup_dictSet_ne (d : Frag) {a k : String} (h : a ≠ k) (v : Json) :
    dictLookup (dictSet d k v) a = dictLookup d a := by
  have hka : ¬k = a := fun hh => h hh.symm
  induction d with
  | nil => simp [dictSet, dictLookup, hka]
  | cons p tl ih =>
    obtain ⟨x, y⟩ := p
    by_cases hx : x = k
    · subst hx; simp [dictSet, dictLookup, hka]
    · simp [dictSet, dictLookup, hx, ih]

theorem dictLookup_mem {d : Frag} {k : String} {v : Json}
    (h : dictLookup d k = some v) : k ∈ dictKeys d := by
  induction d with
  | nil => simp [dictLookup] at h
  | cons p tl ih =>
    obtain ⟨a, b⟩ := p
    by_cases ha : a = k
    · subst ha; simp [dictKeys]
    · simp only [dictLookup, ha, if_false] at h
      simp [dictKeys] at ih ⊢
      exact Or.inr (ih h)

theorem dictSet_ne_nil (d : Frag) (k : String) (v : Json) : dictSet d k v ≠ [] := by
  cases d with
  | nil => simp [dictSet]
  | cons p tl => obtain ⟨a, b⟩ := p; by_cases h : a = k <;> simp [dictSet, h]

theorem dictUpdate_cons (d : Frag) (a : String) (b : Json) (tl : Frag) :
    dictUpdate d ((a, b) :: tl) = dictUpdate (dictSet d a b) tl := rfl

theorem dictLookup_dictUpdate_of_not_mem :
    ∀ (e : Frag) (d : Frag) {k : String}, k ∉ dictKeys e →
      dictLookup (dictUpdate d e) k = dictLookup d k := by
  intro e
  induction e with
  | nil => intro d k _; rfl
  | cons p tl ih =>
    intro d k h
    obtain ⟨a, b⟩ := p
    have h1 : k ≠ a := by
      intro hh; subst hh; exact h (List.mem_cons_self k (dictKeys tl))
    have h2 : k ∉ dictKeys tl := fun hh => h (List.mem_cons_of_mem a hh)
    rw [dictUpdate_cons, ih (dictSet d a b) h2]
    exact dictLookup_dictSet_ne d h1 b

theorem dictLookup_dictUpdate_of_lookup :
    ∀ (e : Frag) (d : Frag) {k : String} {v : Json},
      (dictKeys e).Nodup → dictLookup e k = some v →
      dictLookup (dictUpdate d e) k = some v := by
  intro e
  induction e with
  | nil => intro d k v _ h; simp [dictLookup] at h
  | cons p tl ih =>
    intro d k v he h
    obtain ⟨a, b⟩ := p
    rw [show dictKeys ((a, b) :: tl) = a :: dictKeys tl from rfl,
      List.nodup_cons] at he
    by_cases ha : a = k
    · subst ha
      have hbv : b = v := by simpa [dictLookup] using h
      subst hbv
      rw [dictUpdate_cons, dictLookup_dictUpdate_of_not_mem tl _ he.1]
      exact dictLookup_dictSet_self d a b
    · have h2 : dictLookup tl k = some v := by simpa [dictLookup, ha] using h
      rw [dictUpdate_cons]
      exact ih (dictSet d a b) he.2 h2

theorem dictLookup_foldl_of_not_mem {frags : List Frag} (d : Frag) {k : String}
    (h : ∀ f ∈ frags, k ∉ dictKeys f) :
    dictLookup (frags.foldl dictUpdate d) k = dictLookup d k := by
  induction frags generalizing d with
  | nil => rfl
  | cons g tl ih =>
    rw [List.foldl_cons, ih _ (fun f hf => h f (List.mem_cons_of_mem _ hf))]
    exact dictLookup_dictUpdate_of_not_mem g d (h g (List.mem_cons_self _ _))

theorem dictLookup_merge_of_mem (pre post : List Frag) {f : Frag} {k : String} {v : Json}
    (hwf : (dictKeys f).Nodup) (hv : dictLookup f k = some v)
    (hpost : ∀ g ∈ post, k ∉ dictKeys g) :
    dictLookup (mergeFrags (pre ++ f :: post)) k = some v := by
  unfold mergeFrags
  rw [List.foldl_append, List.foldl_cons, dictLookup_foldl_of_not_mem _ hpost]
  exact dictLookup_dictUpdate_of_lookup f _ hwf hv

theorem dictUpdate_eq_nil {d e : Frag} : dictUpdate d e = [] ↔ d = [] ∧ e = [] := by
  induction e generalizing d with
  | nil => simp [dictUpdate]
  | cons p tl ih =>
    rw [dictUpdate_cons, ih]
    simp [dictSet_ne_nil]

theorem mergeFrags_eq_nil {frags : List Frag} :
    mergeFrags frags = [] ↔ ∀ f ∈ frags, f = [] := by
  have key : ∀ d, frags.foldl dictUpdate d = [] ↔ d = [] ∧ ∀ f ∈ frags, f = [] := by
    induction frags with
    | nil => simp
    | cons g tl ih =>
      intro d
      rw [List.foldl_cons, ih, dictUpdate_eq_nil]
      simp [and_assoc]
  simpa [mergeFrags] using key []

theorem survive_bind_length {α : Type} (e : Except Unit α)
    (f : α → Except Unit (List Frag))
    (hf : ∀ a, (get_survive_any (f a)).length = 1) :
    (get_survive_any (e >>= f)).length = 1 := by
  cases e with
  | error u => rfl
  | ok a => exact hf a

theorem survive_bind_cases {α : Type} {motive : Frag → Prop} (e : Except Unit α)
    (f : α → Except Unit (List Frag))
    (h0 : motive [])
    (hok : ∀ a, motive ((get_survive_any (f a)).headD [])) :
    motive ((get_survive_any (e >>= f)).headD []) := by
  cases e with
  | error u => exact h0
  | ok a => exact hok a

theorem pyIn_middle (p a b : String) : pyIn p (a ++ p ++ b) = true := by
  unfold pyIn
  rw [decide_eq_true_eq]
  exact ⟨a.data, b.data, by simp [String.data_append]⟩

theorem pyIn_port_data (c : Config) : pyIn c.port_data (url_core_data c) = true :=
  pyIn_middle c.port_data (baseUrl c ++ ":") "/api/v1/"

theorem pyIn_port_metadata (c : Config) : pyIn c.port_metadata (url_core_metadata c) = true :=
  pyIn_middle c.port_metadata (baseUrl c ++ ":") "/api/v1/"

theorem pyIn_port_command (c : Config) : pyIn c.port_command (url_core_command c) = true :=
  pyIn_middle c.port_command (baseUrl c ++ ":") "/api/v1/"

theorem pyIn_port_logging (c : Config) : pyIn c.port_logging (url_support_logging c) = true :=
  pyIn_middle c.port_logging (baseUrl c ++ ":") "/api/v1/"

theorem readings_puts_length (c : Config) (url : String) (raw : Raw) :
    (get_survive_any (get_core_throughput_readings c url raw)).length = 1 := by
  unfold get_core_throughput_readings
  split
  · rfl
  · exact survive_bind_length _ _ (fun n => rfl)

theorem events_puts_length (c : Config) (url : String) (raw : Raw) :
    (get_survive_any (get_core_throughput_events c url raw)).length = 1 := by
  unfold get_core_throughput_events
  split
  · rfl
  · exact survive_bind_length _ _ (fun n => rfl)

theorem device_puts_length (c : Config) (url : String) (raw : Raw) :
    (get_survive_any (get_device_info c url raw)).length = 1 := by
  unfold get_device_info
  split
  · rfl
  · refine survive_bind_length _ _ (fun parsed => ?_)
    exact survive_bind_length _ _ (fun n => rfl)

theorem metrics_puts_length (c : Config) (url : String) (raw : Raw) :
    (get_survive_any (get_metrics_data c url raw)).length = 1 := by
  unfold get_metrics_data
  split
  · rfl
  · refine survive_bind_length _ _ (fun parsed => ?_)
    split
    · refine survive_bind_length _ _ (fun a => ?_)
      refine survive_bind_length _ _ (fun m => ?_)
      refine survive_bind_length _ _ (fun f => ?_)
      exact survive_bind_length _ _ (fun l => rfl)
    · split
      · refine survive_bind_length _ _ (fun a => ?_)
        refine survive_bind_length _ _ (fun m => ?_)
        refine survive_bind_length _ _ (fun f => ?_)
        exact survive_bind_length _ _ (fun l => rfl)
      · split
        · refine survive_bind_length _ _ (fun a => ?_)
          refine survive_bind_length _ _ (fun m => ?_)
          exact survive_bind_length _ _ (fun f => rfl)
        · split
          · refine survive_bind_length _ _ (fun a => ?_)
            refine survive_bind_length _ _ (fun m => ?_)
            refine survive_bind_length _ _ (fun f => ?_)
            exact survive_bind_length _ _ (fun l => rfl)
          · rfl

theorem events_frag_keys (c : Config) (url : String) (raw : Raw) :
    dictKeys (sourceFrag c .core_throughput_events url raw) = [] ∨
      dictKeys (sourceFrag c .core_throughput_events url raw) =
        fullFields c .core_throughput_events url := by
  rw [show sourceFrag c .core_throughput_events url raw
      = (get_survive_any (get_core_throughput_events c url raw)).headD [] from rfl]
  unfold get_core_throughput_events
  split
  · exact Or.inl rfl
  · refine survive_bind_cases
      (motive := fun fr => dictKeys fr = [] ∨
        dictKeys fr = fullFields c .core_throughput_events url)
      _ _ (Or.inl rfl) (fun n => ?_)
    exact Or.inr rfl

theorem readings_frag_keys (c : Config) (url : String) (raw : Raw) :
    dictKeys (sourceFrag c .core_throughput_readings url raw) = [] ∨
      dictKeys (sourceFrag c .core_throughput_readings url raw) =
        fullFields c .core_throughput_readings url := by
  rw [show sourceFrag c .core_throughput_readings url raw
      = (get_survive_any (get_core_throughput_readings c url raw)).headD [] from rfl]
  unfold get_core_throughput_readings
  split
  · exact Or.inl rfl
  · refine survive_bind_cases
      (motive := fun fr => dictKeys fr = [] ∨
        dictKeys fr = fullFields c .core_throughput_readings url)
      _ _ (Or.inl rfl) (fun n => ?_)
    right
    by_cases he : pyIn "event" url = true
    · simp only [fullFields, he, if_pos]; rfl
    · simp only [fullFields, he, if_neg]; rfl

theorem device_frag_keys (c : Config) (url : String) (raw : Raw) :
    dictKeys (sourceFrag c .device_info url raw) = [] ∨
      dictKeys (sourceFrag c .device_info url raw) =
        fullFields c .device_info url := by
  rw [show sourceFrag c .device_info url raw
      = (get_survive_any (get_device_info c url raw)).headD [] from rfl]
  unfold get_device_info
  split
  · exact Or.inl rfl
  · refine survive_bind_cases
      (motive := fun fr => dictKeys fr = [] ∨
        dictKeys fr = fullFields c .device_info url)
      _ _ (Or.inl rfl) (fun parsed => ?_)
    refine survive_bind_cases
      (motive := fun fr => dictKeys fr = [] ∨
        dictKeys fr = fullFields c .device_info url)
      _ _ (Or.inl rfl) (fun n => ?_)
    exact Or.inr rfl

theorem metrics_frag_keys (c : Config) (url : String) (raw : Raw) :
    dictKeys (sourceFrag c .metrics_data url raw) = [] ∨
      dictKeys (sourceFrag c .metrics_data url raw) =
        fullFields c .metrics_data url := by
  rw [show sourceFrag c .metrics_data url raw
      = (get_survive_any (get_metrics_data c url raw)).headD [] from rfl]
  unfold get_metrics_data
  split
  · exact Or.inl rfl
  · refine survive_bind_cases
      (motive := fun fr => dictKeys fr = [] ∨
        dictKeys fr = fullFields c .metrics_data url)
      _ _ (Or.inl rfl) (fun parsed => ?_)
    split
    · rename_i hd
      refine survive_bind_cases
        (motive := fun fr => dictKeys fr = [] ∨
          dictKeys fr = fullFields c .metrics_data url)
        _ _ (Or.inl rfl) (fun a => ?_)
      refine survive_bind_cases
        (motive := fun fr => dictKeys fr = [] ∨
          dictKeys fr = fullFields c .metrics_data url)
        _ _ (Or.inl rfl) (fun m => ?_)
      refine survive_bind_cases
        (motive := fun fr => dictKeys fr = [] ∨
          dictKeys fr = fullFields c .metrics_data url)
        _ _ (Or.inl rfl) (fun f => ?_)
      refine survive_bind_cases
        (motive := fun fr => dictKeys fr = [] ∨
          dictKeys fr = fullFields c .metrics_data url)
        _ _ (Or.inl rfl) (fun l => ?_)
      right
      simp only [fullFields]
      rw [if_pos hd]
      rfl
    · rename_i hd
      split
      · rename_i hm
        refine survive_bind_cases
          (motive := fun fr => dictKeys fr = [] ∨
            dictKeys fr = fullFields c .metrics_data url)
          _ _ (Or.inl rfl) (fun a => ?_)
        refine survive_bind_cases
          (motive := fun fr => dictKeys fr = [] ∨
            dictKeys fr = fullFields c .metrics_data url)
          _ _ (Or.inl rfl) (fun m => ?_)
        refine survive_bind_cases
          (motive := fun fr => dictKeys fr = [] ∨
            dictKeys fr = fullFields c .metrics_data url)
          _ _ (Or.inl rfl) (fun f => ?_)
        refine survive_bind_cases
          (motive := fun fr => dictKeys fr = [] ∨
            dictKeys fr = fullFields c .metrics_data url)
          _ _ (Or.inl rfl) (fun l => ?_)
        right
        simp only [fullFields]
        rw [if_neg hd, if_pos hm]
        rfl
      · rename_i hm
        split
        · rename_i hc
          refine survive_bind_cases
            (motive := fun fr => dictKeys fr = [] ∨
              dictKeys fr = fullFields c .metrics_data url)
            _ _ (Or.inl rfl) (fun a => ?_)
          refine survive_bind_cases
            (motive := fun fr => dictKeys fr = [] ∨
              dictKeys fr = fullFields c .metrics_data url)
            _ _ (Or.inl rfl) (fun m => ?_)
          refine survive_bind_cases
            (motive := fun fr => dictKeys fr = [] ∨
              dictKeys fr = fullFields c .metrics_data url)
            _ _ (Or.inl rfl) (fun f => ?_)
          right
          simp only [fullFields]
          rw [if_neg hd, if_neg hm, if_pos hc]
          rfl
        · rename_i hc
          split
          · rename_i hl
            refine survive_bind_cases
              (motive := fun fr => dictKeys fr = [] ∨
                dictKeys fr = fullFields c .metrics_data url)
              _ _ (Or.inl rfl) (fun a => ?_)
            refine survive_bind_cases
              (motive := fun fr => dictKeys fr = [] ∨
                dictKeys fr = fullFields c .metrics_data url)
              _ _ (Or.inl rfl) (fun m => ?_)
            refine survive_bind_cases
              (motive := fun fr => dictKeys fr = [] ∨
                dictKeys fr = fullFields c .metrics_data url)
              _ _ (Or.inl rfl) (fun f => ?_)
            refine survive_bind_cases
              (motive := fun fr => dictKeys fr = [] ∨
                dictKeys fr = fullFields c .metrics_data url)
              _ _ (Or.inl rfl) (fun l => ?_)
            right
            simp only [fullFields]
            rw [if_neg hd, if_neg hm, if_neg hc, if_pos hl]
            rfl
          · exact Or.inl rfl

theorem sourceFrag_keys (c : Config) (k : SourceKind) (url : String) (raw : Raw) :
    dictKeys (sourceFrag c k url raw) = [] ∨
      dictKeys (sourceFrag c k url raw) = fullFields c k url := by
  cases k with
  | core_throughput_events => exact events_frag_keys c url raw
  | core_throughput_readings => exact readings_frag_keys c url raw
  | device_info => exact device_frag_keys c url raw
  | metrics_data => exact metrics_frag_keys c url raw

theorem sourceFrag_keys_sub (c : Config) (k : SourceKind) (url : String) (raw : Raw)
    {x : String} (hx : x ∈ dictKeys (sourceFrag c k url raw)) :
    x ∈ fullFields c k url := by
  rcases sourceFrag_keys c k url raw with h | h
  · rw [h] at hx; exact absurd hx (List.not_mem_nil x)
  · rw [h] at hx; exact hx

/-- The namespaced key set of the i-th configured source, in the order of
`self.methods`, used for the disjointness analysis. -/
def K (i : Fin 7) : List String :=
  [["events"],
   ["readings"],
   ["registered_devices"],
   ["core_metadata_alloc", "core_metadata_malloc", "core_metadata_frees",
     "core_metadata_live_objects"],
   ["core_data_alloc", "core_data_malloc", "core_data_frees", "core_data_live_objects"],
   ["core_command_alloc", "core_command_malloc", "core_command_frees"],
   ["support_logging_alloc", "support_logging_malloc", "support_logging_frees",
     "support_logging_live_objects"]].getD i.val []

theorem K_not_mem {i j : Fin 7} (hij : i ≠ j) {x : String} (hi : x ∈ K i) : x ∉ K j := by
  intro hj
  rcases (by decide : ∀ a b : Fin 7, a = b ∨ (K a).inter (K b) = []) i j with h | h
  · exact hij h
  · have hx : x ∈ (K i).inter (K j) := List.mem_inter_iff.2 ⟨hi, hj⟩
    rw [h] at hx
    exact absurd hx (List.not_mem_nil x)

theorem fullFields_readings_no_event (c : Config) (url : String)
    (hev : pyIn "event" url = false) :
    fullFields c .core_throughput_readings url = ["readings"] := by
  have h : ¬(pyIn "event" url = true) := by simp [hev]
  simp only [fullFields]
  rw [if_neg h]

theorem fullFields_metrics_data (c : Config) :
    fullFields c .metrics_data (url_core_data c) =
      ["core_data_alloc", "core_data_malloc", "core_data_frees",
        "core_data_live_objects"] := by
  simp only [fullFields]
  rw [if_pos (pyIn_port_data c)]

theorem fullFields_metrics_metadata (c : Config)
    (hdm : pyIn c.port_data (url_core_metadata c) = false) :
    fullFields c .metrics_data (url_core_metadata c) =
      ["core_metadata_alloc", "core_metadata_malloc", "core_metadata_frees",
        "core_metadata_live_objects"] := by
  have h1 : ¬(pyIn c.port_data (url_core_metadata c) = true) := by simp [hdm]
  simp only [fullFields]
  rw [if_neg h1, if_pos (pyIn_port_metadata c)]

theorem fullFields_metrics_command (c : Config)
    (hdc : pyIn c.port_data (url_core_command c) = false)
    (hmc : pyIn c.port_metadata (url_core_command c) = false) :
    fullFields c .metrics_data (url_core_command c) =
      ["core_command_alloc", "core_command_malloc", "core_command_frees"] := by
  have h1 : ¬(pyIn c.port_data (url_core_command c) = true) := by simp [hdc]
  have h2 : ¬(pyIn c.port_metadata (url_core_command c) = true) := by simp [hmc]
  simp only [fullFields]
  rw [if_neg h1, if_neg h2, if_pos (pyIn_port_command c)]

theorem fullFields_metrics_logging (c : Config)
    (hdl : pyIn c.port_data (url_support_logging c) = false)
    (hml : pyIn c.port_metadata (url_support_logging c) = false)
    (hcl : pyIn c.port_command (url_support_logging c) = false) :
    fullFields c .metrics_data (url_support_logging c) =
      ["support_logging_alloc", "support_logging_malloc", "support_logging_frees",
        "support_logging_live_objects"] := by
  have h1 : ¬(pyIn c.port_data (url_support_logging c) = true) := by simp [hdl]
  have h2 : ¬(pyIn c.port_metadata (url_support_logging c) = true) := by simp [hml]
  have h3 : ¬(pyIn c.port_command (url_support_logging c) = true) := by simp [hcl]
  simp only [fullFields]
  rw [if_neg h1, if_neg h2, if_neg h3, if_pos (pyIn_port_logging c)]

theorem fragAt_keys_sub (c : Config)
    (hev : pyIn "event" (url_core_data c) = false)
    (hdm : pyIn c.port_data (url_core_metadata c) = false)
    (hdc : pyIn c.port_data (url_core_command c) = false)
    (hmc : pyIn c.port_metadata (url_core_command c) = false)
    (hdl : pyIn c.port_data (url_support_logging c) = false)
    (hml : pyIn c.port_metadata (url_support_logging c) = false)
    (hcl : pyIn c.port_command (url_support_logging c) = false)
    (i : Fin 7) (r : Raw) {x : String}
    (hx : x ∈ dictKeys (fragAt c i r)) : x ∈ K i := by
  fin_cases i
  · exact sourceFrag_keys_sub c .core_throughput_events (url_core_data c) r hx
  · have h := sourceFrag_keys_sub c .core_throughput_readings (url_core_data c) r hx
    rw [fullFields_readings_no_event c (url_core_data c) hev] at h
    exact h
  · exact sourceFrag_keys_sub c .device_info (url_core_metadata c) r hx
  · have h := sourceFrag_keys_sub c .metrics_data (url_core_metadata c) r hx
    rw [fullFields_metrics_metadata c hdm] at h
    exact h
  · have h := sourceFrag_keys_sub c .metrics_data (url_core_data c) r hx
    rw [fullFields_metrics_data c] at h
    exact h
  · have h := sourceFrag_keys_sub c .metrics_data (url_core_command c) r hx
    rw [fullFields_metrics_command c hdc hmc] at h
    exact h
  · have h := sourceFrag_keys_sub c .metrics_data (url_support_logging c) r hx
    rw [fullFields_metrics_logging c hdl hml hcl] at h
    exact h

theorem default_fragAt_keys_sub (i : Fin 7) (r : Raw) {x : String}
    (hx : x ∈ dictKeys (fragAt defaultConfig i r)) : x ∈ K i :=
  fragAt_keys_sub defaultConfig (by decide) (by decide) (by decide) (by decide)
    (by decide) (by decide) (by decide) i r hx

theorem default_not_mem_of_ne {i j : Fin 7} (hij : i ≠ j) {k : String} (hk : k ∈ K i)
    (r : Raw) : k ∉ dictKeys (fragAt defaultConfig j r) :=
  fun hk2 => K_not_mem hij hk (default_fragAt_keys_sub j r hk2)

theorem default_fullFields_nodup : ∀ i : Fin 7,
    (fullFields defaultConfig ((methods defaultConfig).get ⟨i.val, i.isLt⟩).1
      ((methods defaultConfig).get ⟨i.val, i.isLt⟩).2.1).Nodup := by decide

theorem default_fragAt_nodup (i : Fin 7) (r : Raw) :
    (dictKeys (fragAt defaultConfig i r)).Nodup := by
  rcases sourceFrag_keys defaultConfig ((methods defaultConfig).get ⟨i.val, i.isLt⟩).1
      ((methods defaultConfig).get ⟨i.val, i.isLt⟩).2.1 r with h | h
  · rw [show dictKeys (fragAt defaultConfig i r)
        = dictKeys (sourceFrag defaultConfig ((methods defaultConfig).get ⟨i.val, i.isLt⟩).1
            ((methods defaultConfig).get ⟨i.val, i.isLt⟩).2.1 r) from rfl, h]
    exact List.nodup_nil
  · rw [show dictKeys (fragAt defaultConfig i r)
        = dictKeys (sourceFrag defaultConfig ((methods defaultConfig).get ⟨i.val, i.isLt⟩).1
            ((methods defaultConfig).get ⟨i.val, i.isLt⟩).2.1 r) from rfl, h]
    exact default_fullFields_nodup i

theorem cycleFrags_default (r0 r1 r2 r3 r4 r5 r6 : Raw) :
    cycleFrags defaultConfig [r0, r1, r2, r3, r4, r5, r6] =
      [fragAt defaultConfig 0 r0, fragAt defaultConfig 1 r1, fragAt defaultConfig 2 r2,
       fragAt defaultConfig 3 r3, fragAt defaultConfig 4 r4, fragAt defaultConfig 5 r5,
       fragAt defaultConfig 6 r6] := rfl

theorem get_data_some {c : Config} {raws : List Raw} {k : String} {v : Json}
    (h : dictLookup (mergeFrags (cycleFrags c raws)) k = some v) :
    ∃ snap, get_data c raws = some snap ∧ dictLookup snap k = some v := by
  refine ⟨mergeFrags (cycleFrags c raws), ?_, h⟩
  have hne : ¬((mergeFrags (cycleFrags c raws)).isEmpty = true) := by
    intro hh
    rw [List.isEmpty_iff] at hh
    rw [hh] at h
    simp [dictLookup] at h
  unfold get_data resultOrNone
  rw [if_neg hne]

end Lemmas

/-- C1: `_get_data` returns the no-data signal `none` exactly when the
union of all fragments produced in the cycle is empty, that is, when every
fragment of the cycle is the empty dictionary; a snapshot whose only field
is a legitimate zero value is non-empty and is returned as a snapshot, as
shown by a cycle where the event count endpoint returns the text `0`. -/
theorem edgex_C1 :
    (∀ (c : Config) (raws : List Raw),
      get_data c raws = none ↔ ∀ f ∈ cycleFrags c raws, f = []) ∧
    get_data defaultConfig [some (.text "0"), none, none, none, none, none, none] =
      some [("events", Json.num 0)] := by
  constructor
  · intro c raws
    unfold get_data resultOrNone
    constructor
    · intro h
      by_cases hi : (mergeFrags (cycleFrags c raws)).isEmpty = true
      · rw [List.isEmpty_iff] at hi
        exact mergeFrags_eq_nil.1 hi
      · rw [if_neg hi] at h
        exact absurd h (by simp)
    · intro h
      rw [if_pos (by rw [List.isEmpty_iff]; exact mergeFrags_eq_nil.2 h)]
  · rfl

/-- C2: every per-source routine is all-or-nothing.  A falsy fetch result
gives the empty fragment; a raised parse exception gives the empty
fragment; and in every case the produced key set is either empty or
exactly the full key list of that source, never a strict non-empty
subset. -/
theorem edgex_C2 (c : Config) (k : SourceKind) (url : String) (raw : Raw) :
    (rawFalsy raw = true → sourceFrag c k url raw = []) ∧
    (runSource c k url raw = .error () → sourceFrag c k url raw = []) ∧
    (dictKeys (sourceFrag c k url raw) = [] ∨
      dictKeys (sourceFrag c k url raw) = fullFields c k url) := by
  refine ⟨?_, ?_, sourceFrag_keys c k url raw⟩
  · intro h
    cases k with
    | core_throughput_events =>
      show (get_survive_any (get_core_throughput_events c url raw)).headD [] = []
      unfold get_core_throughput_events
      rw [if_pos h]
      rfl
    | core_throughput_readings =>
      show (get_survive_any (get_core_throughput_readings c url raw)).headD [] = []
      unfold get_core_throughput_readings
      rw [if_pos h]
      rfl
    | device_info =>
      show (get_survive_any (get_device_info c url raw)).headD [] = []
      unfold get_device_info
      rw [if_pos h]
      rfl
    | metrics_data =>
      show (get_survive_any (get_metrics_data c url raw)).headD [] = []
      unfold get_metrics_data
      rw [if_pos h]
      rfl
  · intro h
    show (get_survive_any (runSource c k url raw)).headD [] = []
    rw [h]
    rfl

/-- Witness for C2 at a concrete input: a device-list payload that is not
valid JSON raises in the routine and the contributed fragment is empty. -/
theorem edgex_C2_witness :
    sourceFrag defaultConfig .device_info (url_core_metadata defaultConfig)
      (some (.text "oops")) = [] :=
  (edgex_C2 defaultConfig .device_info (url_core_metadata defaultConfig)
    (some (.text "oops"))).2.1 rfl

/-- Counterexample to C3 as stated: disjointness fails for some configured
base URLs.  When the configured host contains the substring `event`, the
reading-count routine mirrors the count into an `events` key, which the
event-count routine also produces. -/
theorem edgex_C3_counterexample :
    "events" ∈ dictKeys (sourceFrag eventConfig .core_throughput_readings
        (url_core_data eventConfig) (some (.text "7"))) ∧
    "events" ∈ dictKeys (sourceFrag eventConfig .core_throughput_events
        (url_core_data eventConfig) (some (.text "5"))) := by
  constructor <;> decide

/-- C3 (amended): for any two distinct enabled sources and any raw inputs
the produced key sets are disjoint, provided the substring `event` does
not occur in the core-data base URL and no service port string occurs as
a substring of the URL of an earlier-checked service (both hold for the
default configuration). -/
theorem edgex_C3 (c : Config)
    (hev : pyIn "event" (url_core_data c) = false)
    (hdm : pyIn c.port_data (url_core_metadata c) = false)
    (hdc : pyIn c.port_data (url_core_command c) = false)
    (hmc : pyIn c.port_metadata (url_core_command c) = false)
    (hdl : pyIn c.port_data (url_support_logging c) = false)
    (hml : pyIn c.port_metadata (url_support_logging c) = false)
    (hcl : pyIn c.port_command (url_support_logging c) = false)
    (i j : Fin 7) (hij : i ≠ j) (r r2 : Raw) (x : String)
    (hx : x ∈ dictKeys (fragAt c i r)) : x ∉ dictKeys (fragAt c j r2) :=
  fun hx2 =>
    K_not_mem hij (fragAt_keys_sub c hev hdm hdc hmc hdl hml hcl i r hx)
      (fragAt_keys_sub c hev hdm hdc hmc hdl hml hcl j r2 hx2)

/-- Witness for the amended C3 under the default configuration: the key
produced by the reading-count source does not occur among the keys of the
event-count source. -/
theorem edgex_C3_witness :
    "readings" ∉ dictKeys (fragAt defaultConfig 0 (some (.text "5"))) :=
  edgex_C3 defaultConfig (by decide) (by decide) (by decide) (by decide) (by decide)
    (by decide) (by decide) 1 0 (by decide) (some (.text "7")) (some (.text "5"))
    "readings" (by decide)

/-- Counterexample to C4 as stated: when two sources produce fragments
with a colliding key (possible with a host containing `event`), the merge
loop of `_get_data` silently overwrites the earlier value with the later
one and returns a snapshot normally; no fault escapes to the caller.  The
event-count source contributed events = 5, yet the returned snapshot holds
events = 7 from the reading-count source. -/
theorem edgex_C4_counterexample :
    sourceFrag eventConfig .core_throughput_events (url_core_data eventConfig)
        (some (.text "5")) = [("events", Json.num 5)] ∧
    sourceFrag eventConfig .core_throughput_readings (url_core_data eventConfig)
        (some (.text "7")) = [("readings", Json.num 7), ("events", Json.num 7)] ∧
    get_data eventConfig
        [some (.text "5"), some (.text "7"), none, none, none, none, none] =
      some [("events", Json.num 7), ("readings", Json.num 7)] :=
  ⟨rfl, rfl, rfl⟩

/-- C4 (amended): the merge step resolves key collisions silently with a
last-write-wins rule: `result.update(fragment)` makes every binding of the
fragment win over whatever the accumulator held, and no fault is raised. -/
theorem edgex_C4 (d e : Frag) (k : String) (v : Json)
    (he : (dictKeys e).Nodup) (hv : dictLookup e k = some v) :
    dictLookup (dictUpdate d e) k = some v :=
  dictLookup_dictUpdate_of_lookup e d he hv

/-- Witness for the amended C4: updating a snapshot holding events = 5
with a fragment holding events = 7 yields events = 7. -/
theorem edgex_C4_witness :
    dictLookup (dictUpdate [("events", Json.num 5)]
      [("readings", Json.num 7), ("events", Json.num 7)]) "events" = some (Json.num 7) :=
  edgex_C4 [("events", Json.num 5)] [("readings", Json.num 7), ("events", Json.num 7)]
    "events" (Json.num 7) (by decide) rfl

/-- Counterexample to C5 as stated: the event-count routine never adds a
`readings` field, even though its endpoint path `event/count` contains
`event` and hence represents event-derived readings: on plain integer text
its fragment is exactly the single `events` binding. -/
theorem edgex_C5_counterexample :
    sourceFrag defaultConfig .core_throughput_events (url_core_data defaultConfig)
        (some (.text "42")) = [("events", Json.num 42)] ∧
    pyIn "event" (url_core_data defaultConfig ++ "event/count") = true ∧
    dictKeys (sourceFrag defaultConfig .core_throughput_events (url_core_data defaultConfig)
        (some (.text "42"))) = ["events"] :=
  ⟨rfl, rfl, rfl⟩

/-- C5 (amended): the event-count routine, given raw bytes that are plain
integer text, produces exactly the fragment binding `events` to that
integer; it never adds `readings` (the mirroring is done by the
reading-count routine instead). -/
theorem edgex_C5 (c : Config) (url : String) (s : String) (n : Int)
    (hs : rawFalsy (some (.text s)) = false) (hn : pyIntChars s.data = some n) :
    sourceFrag c .core_throughput_events url (some (.text s)) =
      [("events", Json.num n)] := by
  show (get_survive_any (get_core_throughput_events c url (some (.text s)))).headD [] = _
  unfold get_core_throughput_events
  rw [if_neg (by simp [hs])]
  have hp : pyInt (some (.text s)) = .ok n := by
    simp only [pyInt, pyIntText, hn]
  rw [hp, ok_bind]
  rfl

/-- Witness for the amended C5 at the concrete input `42`. -/
theorem edgex_C5_witness :
    sourceFrag defaultConfig .core_throughput_events (url_core_data defaultConfig)
        (some (.text "42")) = [("events", Json.num 42)] :=
  edgex_C5 defaultConfig (url_core_data defaultConfig) "42" 42 rfl rfl

/-- C6: under the default configuration, the runtime-metrics routine on a
JSON object with nested Memory fields produces exactly the four
service-prefixed fields alloc, malloc, frees and live_objects, except for
the core_command service, whose fragment omits live_objects and holds
exactly the other three. -/
theorem edgex_C6 (a m f l : Int) :
    sourceFrag defaultConfig .metrics_data (url_core_data defaultConfig)
        (memJson a m f l) =
      [("core_data_alloc", Json.num a), ("core_data_malloc", Json.num m),
       ("core_data_frees", Json.num f), ("core_data_live_objects", Json.num l)] ∧
    sourceFrag defaultConfig .metrics_data (url_core_metadata defaultConfig)
        (memJson a m f l) =
      [("core_metadata_alloc", Json.num a), ("core_metadata_malloc", Json.num m),
       ("core_metadata_frees", Json.num f), ("core_metadata_live_objects", Json.num l)] ∧
    sourceFrag defaultConfig .metrics_data (url_core_command defaultConfig)
        (memJson a m f l) =
      [("core_command_alloc", Json.num a), ("core_command_malloc", Json.num m),
       ("core_command_frees", Json.num f)] ∧
    dictKeys (sourceFrag defaultConfig .metrics_data (url_core_command defaultConfig)
        (memJson a m f l)) =
      ["core_command_alloc", "core_command_malloc", "core_command_frees"] ∧
    sourceFrag defaultConfig .metrics_data (url_support_logging defaultConfig)
        (memJson a m f l) =
      [("support_logging_alloc", Json.num a), ("support_logging_malloc", Json.num m),
       ("support_logging_frees", Json.num f),
       ("support_logging_live_objects", Json.num l)] :=
  ⟨rfl, rfl, rfl, rfl, rfl⟩

/-- C7: isolation under the default configuration.  For any raw inputs of
the seven sources (each either failing or succeeding), every binding that
any source contributes survives into the snapshot returned by
`_get_data`, which is returned normally; failed sources only make their
own fields absent. -/
theorem edgex_C7 (r0 r1 r2 r3 r4 r5 r6 : Raw) (f : Frag) (k : String) (v : Json)
    (hf : f ∈ cycleFrags defaultConfig [r0, r1, r2, r3, r4, r5, r6])
    (hv : dictLookup f k = some v) :
    ∃ snap, get_data defaultConfig [r0, r1, r2, r3, r4, r5, r6] = some snap ∧
      dictLookup snap k = some v := by
  rw [cycleFrags_default] at hf
  simp only [List.mem_cons, List.not_mem_nil, or_false] at hf
  rcases hf with rfl | rfl | rfl | rfl | rfl | rfl | rfl
  · have hkK : k ∈ K 0 := default_fragAt_keys_sub 0 r0 (dictLookup_mem hv)
    have hpost : ∀ g ∈ [fragAt defaultConfig 1 r1, fragAt defaultConfig 2 r2,
        fragAt defaultConfig 3 r3, fragAt defaultConfig 4 r4, fragAt defaultConfig 5 r5,
        fragAt defaultConfig 6 r6], k ∉ dictKeys g := by
      intro g hg
      simp only [List.mem_cons, List.not_mem_nil, or_false] at hg
      rcases hg with rfl | rfl | rfl | rfl | rfl | rfl
      · exact default_not_mem_of_ne (by decide) hkK r1
      · exact default_not_mem_of_ne (by decide) hkK r2
      · exact default_not_mem_of_ne (by decide) hkK r3
      · exact default_not_mem_of_ne (by decide) hkK r4
      · exact default_not_mem_of_ne (by decide) hkK r5
      · exact default_not_mem_of_ne (by decide) hkK r6
    refine get_data_some ?_
    rw [cycleFrags_default]
    exact dictLookup_merge_of_mem [] _ (default_fragAt_nodup 0 r0) hv hpost
  · have hkK : k ∈ K 1 := default_fragAt_keys_sub 1 r1 (dictLookup_mem hv)
    have hpost : ∀ g ∈ [fragAt defaultConfig 2 r2, fragAt defaultConfig 3 r3,
        fragAt defaultConfig 4 r4, fragAt defaultConfig 5 r5,
        fragAt defaultConfig 6 r6], k ∉ dictKeys g := by
      intro g hg
      simp only [List.mem_cons, List.not_mem_nil, or_false] at hg
      rcases hg with rfl | rfl | rfl | rfl | rfl
      · exact default_not_mem_of_ne (by decide) hkK r2
      · exact default_not_mem_of_ne (by decide) hkK r3
      · exact default_not_mem_of_ne (by decide) hkK r4
      · exact default_not_mem_of_ne (by decide) hkK r5
      · exact default_not_mem_of_ne (by decide) hkK r6
    refine get_data_some ?_
    rw [cycleFrags_default]
    exact dictLookup_merge_of_mem [fragAt defaultConfig 0 r0] _
      (default_fragAt_nodup 1 r1) hv hpost
  · have hkK : k ∈ K 2 := default_fragAt_keys_sub 2 r2 (dictLookup_mem hv)
    have hpost : ∀ g ∈ [fragAt defaultConfig 3 r3, fragAt defaultConfig 4 r4,
        fragAt defaultConfig 5 r5, fragAt defaultConfig 6 r6], k ∉ dictKeys g := by
      intro g hg
      simp only [List.mem_cons, List.not_mem_nil, or_false] at hg
      rcases hg with rfl | rfl | rfl | rfl
      · exact default_not_mem_of_ne (by decide) hkK r3
      · exact default_not_mem_of_ne (by decide) hkK r4
      · exact default_not_mem_of_ne (by decide) hkK r5
      · exact default_not_mem_of_ne (by decide) hkK r6
    refine get_data_some ?_
    rw [cycleFrags_default]
    exact dictLookup_merge_of_mem
      [fragAt defaultConfig 0 r0, fragAt defaultConfig 1 r1] _
      (default_fragAt_nodup 2 r2) hv hpost
  · have hkK : k ∈ K 3 := default_fragAt_keys_sub 3 r3 (dictLookup_mem hv)
    have hpost : ∀ g ∈ [fragAt defaultConfig 4 r4, fragAt defaultConfig 5 r5,
        fragAt defaultConfig 6 r6], k ∉ dictKeys g := by
      intro g hg
      simp only [List.mem_cons, List.not_mem_nil, or_false] at hg
      rcases hg with rfl | rfl | rfl
      · exact default_not_mem_of_ne (by decide) hkK r4
      · exact default_not_mem_of_ne (by decide) hkK r5
      · exact default_not_mem_of_ne (by decide) hkK r6
    refine get_data_some ?_
    rw [cycleFrags_default]
    exact dictLookup_merge_of_mem
      [fragAt defaultConfig 0 r0, fragAt defaultConfig 1 r1, fragAt defaultConfig 2 r2] _
      (default_fragAt_nodup 3 r3) hv hpost
  · have hkK : k ∈ K 4 := default_fragAt_keys_sub 4 r4 (dictLookup_mem hv)
    have hpost : ∀ g ∈ [fragAt defaultConfig 5 r5, fragAt defaultConfig 6 r6],
        k ∉ dictKeys g := by
      intro g hg
      simp only [List.mem_cons, List.not_mem_nil, or_false] at hg
      rcases hg with rfl | rfl
      · exact default_not_mem_of_ne (by decide) hkK r5
      · exact default_not_mem_of_ne (by decide) hkK r6
    refine get_data_some ?_
    rw [cycleFrags_default]
    exact dictLookup_merge_of_mem
      [fragAt defaultConfig 0 r0, fragAt defaultConfig 1 r1, fragAt defaultConfig 2 r2,
       fragAt defaultConfig 3 r3] _
      (default_fragAt_nodup 4 r4) hv hpost
  · have hkK : k ∈ K 5 := default_fragAt_keys_sub 5 r5 (dictLookup_mem hv)
    have hpost : ∀ g ∈ [fragAt defaultConfig 6 r6], k ∉ dictKeys g := by
      intro g hg
      simp only [List.mem_cons, List.not_mem_nil, or_false] at hg
      rcases hg with rfl
      exact default_not_mem_of_ne (by decide) hkK r6
    refine get_data_some ?_
    rw [cycleFrags_default]
    exact dictLookup_merge_of_mem
      [fragAt defaultConfig 0 r0, fragAt defaultConfig 1 r1, fragAt defaultConfig 2 r2,
       fragAt defaultConfig 3 r3, fragAt defaultConfig 4 r4] _
      (default_fragAt_nodup 5 r5) hv hpost
  · have hpost : ∀ g ∈ ([] : List Frag), k ∉ dictKeys g := by
      intro g hg
      exact absurd hg (List.not_mem_nil g)
    refine get_data_some ?_
    rw [cycleFrags_default]
    exact dictLookup_merge_of_mem
      [fragAt defaultConfig 0 r0, fragAt defaultConfig 1 r1, fragAt defaultConfig 2 r2,
       fragAt defaultConfig 3 r3, fragAt defaultConfig 4 r4, fragAt defaultConfig 5 r5] _
      (default_fragAt_nodup 6 r6) hv hpost

/-- Witness for C7: with only the event-count source succeeding, its
binding is present in the returned snapshot. -/
theorem edgex_C7_witness :
    ∃ snap, get_data defaultConfig
        [some (.text "5"), none, none, none, none, none, none] = some snap ∧
      dictLookup snap "events" = some (Json.num 5) :=
  edgex_C7 (some (.text "5")) none none none none none none
    (fragAt defaultConfig 0 (some (.text "5"))) "events" (Json.num 5)
    (by rw [cycleFrags_default]; exact List.mem_cons_self _ _) rfl

/-- C8: every per-source routine, on every code path, passes exactly one
fragment to `queue.put`: one on success, one empty on a falsy fetch
result, and one empty from the `get_survive_any` wrapper on an
exception. -/
theorem edgex_C8 (c : Config) (k : SourceKind) (url : String) (raw : Raw) :
    (sourcePuts c k url raw).length = 1 := by
  cases k with
  | core_throughput_events => exact events_puts_length c url raw
  | core_throughput_readings => exact readings_puts_length c url raw
  | device_info => exact device_puts_length c url raw
  | metrics_data => exact metrics_puts_length c url raw

/-- C9: if no configured port string occurs in the URL, the runtime
metrics routine succeeds with an empty fragment (no fields, no raised
error); when several port strings occur, the service attribution is
decided by the first match in the fixed order core_data, core_metadata,
core_command, support_logging of the if/elif chain. -/
theorem edgex_C9 (c : Config) (url : String) (j : Json) (a m f l : Int) :
    (pyIn c.port_data url = false → pyIn c.port_metadata url = false →
      pyIn c.port_command url = false → pyIn c.port_logging url = false →
      runSource c .metrics_data url (some (.json j)) = .ok [[]]) ∧
    (pyIn c.port_data url = true →
      sourceFrag c .metrics_data url (memJson a m f l) =
        [("core_data_alloc", Json.num a), ("core_data_malloc", Json.num m),
         ("core_data_frees", Json.num f), ("core_data_live_objects", Json.num l)]) ∧
    (pyIn c.port_data url = false → pyIn c.port_metadata url = true →
      sourceFrag c .metrics_data url (memJson a m f l) =
        [("core_metadata_alloc", Json.num a), ("core_metadata_malloc", Json.num m),
         ("core_metadata_frees", Json.num f),
         ("core_metadata_live_objects", Json.num l)]) ∧
    (pyIn c.port_data url = false → pyIn c.port_metadata url = false →
      pyIn c.port_command url = true →
      sourceFrag c .metrics_data url (memJson a m f l) =
        [("core_command_alloc", Json.num a), ("core_command_malloc", Json.num m),
         ("core_command_frees", Json.num f)]) ∧
    (pyIn c.port_data url = false → pyIn c.port_metadata url = false →
      pyIn c.port_command url = false → pyIn c.port_logging url = true →
      sourceFrag c .metrics_data url (memJson a m f l) =
        [("support_logging_alloc", Json.num a), ("support_logging_malloc", Json.num m),
         ("support_logging_frees", Json.num f),
         ("support_logging_live_objects", Json.num l)]) := by
  refine ⟨?_, ?_, ?_, ?_, ?_⟩
  · intro h1 h2 h3 h4
    show get_metrics_data c url (some (.json j)) = .ok [[]]
    unfold get_metrics_data
    simp only [h1, h2, h3, h4]
    rfl
  · intro h1
    show (get_survive_any (get_metrics_data c url (memJson a m f l))).headD [] = _
    unfold get_metrics_data
    simp only [h1]
    rfl
  · intro h1 h2
    show (get_survive_any (get_metrics_data c url (memJson a m f l))).headD [] = _
    unfold get_metrics_data
    simp only [h1, h2]
    rfl
  · intro h1 h2 h3
    show (get_survive_any (get_metrics_data c url (memJson a m f l))).headD [] = _
    unfold get_metrics_data
    simp only [h1, h2, h3]
    rfl
  · intro h1 h2 h3 h4
    show (get_survive_any (get_metrics_data c url (memJson a m f l))).headD [] = _
    unfold get_metrics_data
    simp only [h1, h2, h3, h4]
    rfl

/-- Witness for C9: in a URL containing both the core-data and the
core-metadata default port strings, the core-data branch wins. -/
theorem edgex_C9_witness :
    sourceFrag defaultConfig .metrics_data "http://h:48080:48081/api/v1/"
        (memJson 1 2 3 4) =
      [("core_data_alloc", Json.num 1), ("core_data_malloc", Json.num 2),
       ("core_data_frees", Json.num 3), ("core_data_live_objects", Json.num 4)] :=
  (edgex_C9 defaultConfig "http://h:48080:48081/api/v1/" Json.null 1 2 3 4).2.1
    (by decide)

/-- C10: the device-list routine sets registered_devices to the Python
length of whatever JSON value the payload decodes to: the length of an
array, the number of keys of an object, the character count of a string;
a JSON number has no length, the routine raises and the fragment is
empty. -/
theorem edgex_C10 (c : Config) (url : String) :
    (∀ xs : List Json, sourceFrag c .device_info url (some (.json (.arr xs))) =
        [("registered_devices", Json.num (xs.length : Int))]) ∧
    (∀ fs : List (String × Json), sourceFrag c .device_info url (some (.json (.obj fs))) =
        [("registered_devices", Json.num (fs.length : Int))]) ∧
    (∀ s : String, sourceFrag c .device_info url (some (.json (.str s))) =
        [("registered_devices", Json.num (s.length : Int))]) ∧
    (∀ n : Int, sourceFrag c .device_info url (some (.json (.num n))) = []) :=
  ⟨fun xs => rfl, fun fs => rfl, fun s => rfl, fun n => rfl⟩

end Edgex
